import Mathlib

/-!
Verification development for the LLM-transparency-layer browser extension.

The definitions below are a shallow embedding of the extension's client
code:

* `StateManager` (`src/client/application/state/state-manager.js`):
  the state store with `getState` / `setState` and listener notification.
* `PanelCtrl` / `handleStateChange` / `updateModeUI` / `handleAnalyze` /
  `handleRepromptText` (the `PanelManager` class): panel controller,
  mode-driven UI updates and the analyze / reprompt flows.
* `editInputKeydown`, `deleteAssumptionHandler` (the `AssumptionsPage`
  class): per-assumption edit and delete handlers.
* `extractReasoning` (the `AssumptionsAPIClient` class): the API call
  boundary, with the fetch outcome passed in explicitly.
* `getActiveLLMFrontendAdapter` (the adapter registry): first-match
  adapter detection.

JavaScript objects become Lean structures; a `Partial<AppState>` update
becomes a structure of `Option` fields (`StateUpdate`); thrown
exceptions become `Except`; the DOM facts an adapter inspects become a
small record of booleans (`PageDOM`).
-/

namespace TransparencyLayer

/-- Panel modes from `constants.js` (`PANEL_MODES`). -/
inductive PanelMode where
  | edit
  | assumptions
  | analyzing
deriving DecidableEq, Repr

/-- The flat application state held by the state store
(`AppState` typedef in `state-manager.js`). -/
structure AppState where
  userPrompt : String
  aiResponse : String
  assumptions : List String
  savedPrompt : String
  savedResponse : String
  currentMode : PanelMode
  isAnalyzing : Bool
deriving DecidableEq, Repr

/-- The initial state installed by the `StateManager` class field
initializer (and restored by `reset`). -/
def initialAppState : AppState :=
  { userPrompt := ""
    aiResponse := ""
    assumptions := []
    savedPrompt := ""
    savedResponse := ""
    currentMode := .edit
    isAnalyzing := false }

/-- A `Partial<AppState>` update object: each field is present (`some`)
or absent (`none`).  Callers of `setState` in this codebase never pass a
field explicitly set to `undefined`, so absence of a key is the only
case to model. -/
structure StateUpdate where
  userPrompt : Option String := none
  aiResponse : Option String := none
  assumptions : Option (List String) := none
  savedPrompt : Option String := none
  savedResponse : Option String := none
  currentMode : Option PanelMode := none
  isAnalyzing : Option Bool := none
deriving DecidableEq, Repr

/-- The JavaScript spread merge `{ ...state, ...updates }`: a present
field of `updates` overrides the corresponding field of `state`; the
merge is shallow (the `assumptions` array is replaced wholesale, never
merged element-wise). -/
def mergeState (s : AppState) (u : StateUpdate) : AppState :=
  { userPrompt := u.userPrompt.getD s.userPrompt
    aiResponse := u.aiResponse.getD s.aiResponse
    assumptions := u.assumptions.getD s.assumptions
    savedPrompt := u.savedPrompt.getD s.savedPrompt
    savedResponse := u.savedResponse.getD s.savedResponse
    currentMode := u.currentMode.getD s.currentMode
    isAnalyzing := u.isAnalyzing.getD s.isAnalyzing }

/-- The state store.  The listener set is not carried here: every
listener is invoked with the same `(newState, oldState)` pair, so a run
is modelled by the store state plus the trace of notification pairs
broadcast to all subscribers (see `runSetStates`). -/
structure StateManager where
  state : AppState
deriving DecidableEq, Repr

/-- `getState()`: returns a snapshot copy of the current state (copying
is the identity on immutable Lean values). -/
def StateManager.getState (m : StateManager) : AppState := m.state

/-- `setState(updates)`: snapshots the old state, installs the shallow
merge, and notifies listeners.  Returns the updated store together with
the `(newState, oldState)` pair passed to every listener by
`notifyListeners`. -/
def StateManager.setState (m : StateManager) (updates : StateUpdate) :
    StateManager × AppState × AppState :=
  let oldState := m.state
  let newState := mergeState m.state updates
  (⟨newState⟩, newState, oldState)

/-- Runs a sequence of `setState` calls, collecting in order the
`(newState, oldState)` notification pair broadcast by each call. -/
def runSetStates (m : StateManager) : List StateUpdate → StateManager × List (AppState × AppState)
  | [] => (m, [])
  | u :: rest =>
    let r := m.setState u
    let tail := runSetStates r.1 rest
    (tail.1, (r.2.1, r.2.2) :: tail.2)

theorem runSetStates_getState (init : AppState) (updatesList : List StateUpdate) :
    (runSetStates ⟨init⟩ updatesList).1.getState = updatesList.foldl mergeState init := by
  induction updatesList generalizing init with
  | nil => rfl
  | cons u rest ih =>
    simp only [runSetStates, StateManager.setState, List.foldl_cons]
    exact ih (mergeState init u)

theorem runSetStates_notification (init : AppState) (updatesList : List StateUpdate)
    (n : Nat) (hn : n < updatesList.length) :
    (runSetStates ⟨init⟩ updatesList).2.get? n =
      some ((updatesList.take (n + 1)).foldl mergeState init,
            (updatesList.take n).foldl mergeState init) := by
  induction updatesList generalizing init n with
  | nil => exact absurd hn (by simp)
  | cons u rest ih =>
    cases n with
    | zero => simp [runSetStates, StateManager.setState]
    | succ k =>
      have hk : k < rest.length := Nat.lt_of_succ_lt_succ (by simpa using hn)
      simp only [runSetStates, StateManager.setState, List.get?_cons_succ,
        List.take_succ_cons, List.foldl_cons]
      exact ih (mergeState init u) k hk

/-- Claim C1: for every sequence of `setState` calls, `getState()` after
the last call equals the shallow merge of the initial state with all the
partial updates applied in order (instantiating the update list at each
prefix gives the statement after the Nth call), and the notification
broadcast to every subscriber by the call at 0-based position `n` (the
(n+1)st call) carries a `newState` snapshot equal to the merge of the
first `n + 1` partials into the initial state and an `oldState` snapshot
equal to the merge of the first `n` partials — the state immediately
before that call's merge. -/
theorem setState_merge_and_notifications (init : AppState)
    (updatesList : List StateUpdate) (n : Nat) (hn : n < updatesList.length) :
    (runSetStates ⟨init⟩ updatesList).1.getState = updatesList.foldl mergeState init ∧
    (runSetStates ⟨init⟩ updatesList).2.get? n =
      some ((updatesList.take (n + 1)).foldl mergeState init,
            (updatesList.take n).foldl mergeState init) :=
  ⟨runSetStates_getState init updatesList,
   runSetStates_notification init updatesList n hn⟩

/-- Witness for C1 at a concrete two-update run. -/
theorem setState_merge_and_notifications_witness :
    1 < [({ assumptions := some ["a"] } : StateUpdate),
         { currentMode := some PanelMode.analyzing }].length ∧
    ((runSetStates ⟨initialAppState⟩
        [({ assumptions := some ["a"] } : StateUpdate),
         { currentMode := some PanelMode.analyzing }]).1.getState =
      [({ assumptions := some ["a"] } : StateUpdate),
       { currentMode := some PanelMode.analyzing }].foldl mergeState initialAppState ∧
     (runSetStates ⟨initialAppState⟩
        [({ assumptions := some ["a"] } : StateUpdate),
         { currentMode := some PanelMode.analyzing }]).2.get? 1 =
      some (([({ assumptions := some ["a"] } : StateUpdate),
              { currentMode := some PanelMode.analyzing }].take 2).foldl mergeState initialAppState,
            ([({ assumptions := some ["a"] } : StateUpdate),
              { currentMode := some PanelMode.analyzing }].take 1).foldl mergeState initialAppState)) :=
  ⟨by decide,
   setState_merge_and_notifications initialAppState
     [{ assumptions := some ["a"] }, { currentMode := some PanelMode.analyzing }] 1 (by decide)⟩

/-- The DOM/UI state that `PanelManager` drives: its cached mode, the
header title, which of the three pages is visible, whether the Forward
button of the input page is shown, and the `assumptions` array cached by
the `AssumptionsPage` component. -/
structure PanelCtrl where
  currentMode : PanelMode
  titleText : String
  inputPageVisible : Bool
  analyzingPageVisible : Bool
  assumptionsPageVisible : Bool
  forwardVisible : Bool
  pageAssumptions : List String
deriving DecidableEq, Repr

/-- `PanelManager._updateModeUI(mode)`: reads the store state via
`getState()` (passed here as `storeState`), switches the visible page
and the title by mode, and shows the Forward button exactly in the
`edit` branch when the state's assumptions list is non-empty. -/
def updateModeUI (mode : PanelMode) (storeState : AppState) (pc : PanelCtrl) : PanelCtrl :=
  match mode with
  | .edit =>
    { pc with
      titleText := "Analyze Prompt"
      inputPageVisible := true
      analyzingPageVisible := false
      assumptionsPageVisible := false
      forwardVisible := !storeState.assumptions.isEmpty }
  | .analyzing =>
    { pc with
      titleText := "Analyzing..."
      inputPageVisible := false
      analyzingPageVisible := true
      assumptionsPageVisible := false
      forwardVisible := false }
  | .assumptions =>
    { pc with
      titleText := "Assumptions"
      inputPageVisible := false
      analyzingPageVisible := false
      assumptionsPageVisible := true
      forwardVisible := false }

/-- `PanelManager._handleStateChange(newState, oldState)`: runs
`_updateModeUI` only when the mode actually changed (reading the store,
which at notification time already holds `newState`), and pushes the
assumptions array to the `AssumptionsPage` only when it changed
(`_arraysEqual` is element-wise string comparison, i.e. list
equality). -/
def handleStateChange (newState oldState : AppState) (pc : PanelCtrl) : PanelCtrl :=
  let pc1 :=
    if newState.currentMode ≠ oldState.currentMode then
      updateModeUI newState.currentMode newState { pc with currentMode := newState.currentMode }
    else pc
  if newState.assumptions ≠ oldState.assumptions then
    { pc1 with pageAssumptions := newState.assumptions }
  else pc1

/-- The store together with the subscribed panel controller. -/
structure PanelSystem where
  store : StateManager
  panel : PanelCtrl
deriving DecidableEq, Repr

/-- One `setState` call observed by the subscribed panel controller:
the store merges the update and the controller's `_handleStateChange`
runs on the `(newState, oldState)` notification. -/
def PanelSystem.setState (sys : PanelSystem) (updates : StateUpdate) : PanelSystem :=
  let r := sys.store.setState updates
  { store := r.1, panel := handleStateChange r.2.1 r.2.2 sys.panel }

/-- The `PanelManager` constructor: mode starts at `edit`, the input
page markup starts with the Forward button hidden and disabled, the
`AssumptionsPage` starts with an empty array, and `_updateModeUI(edit)`
runs once against the store's current state. -/
def initPanelCtrl (storeState : AppState) : PanelCtrl :=
  updateModeUI .edit storeState
    { currentMode := .edit
      titleText := ""
      inputPageVisible := false
      analyzingPageVisible := false
      assumptionsPageVisible := false
      forwardVisible := false
      pageAssumptions := [] }

/-- A freshly constructed system: default store state, panel controller
just constructed and subscribed. -/
def initPanelSystem : PanelSystem :=
  { store := ⟨initialAppState⟩, panel := initPanelCtrl initialAppState }

theorem updateModeUI_forwardVisible (mode : PanelMode) (s : AppState) (pc : PanelCtrl) :
    (updateModeUI mode s pc).forwardVisible =
      (decide (mode = PanelMode.edit) && !s.assumptions.isEmpty) := by
  cases mode <;> rfl

theorem handleStateChange_forwardVisible (newState oldState : AppState) (pc : PanelCtrl) :
    (handleStateChange newState oldState pc).forwardVisible =
      if newState.currentMode ≠ oldState.currentMode then
        (decide (newState.currentMode = PanelMode.edit) && !newState.assumptions.isEmpty)
      else pc.forwardVisible := by
  simp only [handleStateChange]
  by_cases ha : newState.assumptions = oldState.assumptions <;>
    by_cases hm : newState.currentMode = oldState.currentMode <;>
      simp [ha, hm, updateModeUI_forwardVisible]

/-- A run exhibiting stale Forward visibility: starting from the fresh
system (mode `edit`, no assumptions, Forward hidden), a single state
update installs a non-empty assumptions list without changing the mode. -/
def staleForwardRun : PanelSystem :=
  initPanelSystem.setState { assumptions := some ["a"] }

/-- Counterexample to claim C2 as stated: after the run above the system
is in `edit` mode with a non-empty assumptions list, yet the Forward
affordance is not visible — visibility is not a pure function of
`(currentMode, assumptions.length)`. -/
theorem forward_visibility_pure_function_counterexample :
    staleForwardRun.store.state.currentMode = PanelMode.edit ∧
    0 < staleForwardRun.store.state.assumptions.length ∧
    staleForwardRun.panel.forwardVisible = false := by decide

/-- Claim C2 (amended): the Forward affordance's visibility is
recomputed only by a state update that changes `currentMode`; such an
update makes it visible iff the new mode is `edit` and the new state's
assumptions list is non-empty, while an update that leaves the mode
unchanged leaves the visibility unchanged (so between mode changes the
visibility can be stale with respect to the assumptions list). -/
theorem forward_visibility_recomputed_on_mode_change (sys : PanelSystem) (u : StateUpdate) :
    (sys.setState u).panel.forwardVisible =
      if (mergeState sys.store.state u).currentMode ≠ sys.store.state.currentMode then
        (decide ((mergeState sys.store.state u).currentMode = PanelMode.edit) &&
          !(mergeState sys.store.state u).assumptions.isEmpty)
      else sys.panel.forwardVisible :=
  handleStateChange_forwardVisible (mergeState sys.store.state u) sys.store.state sys.panel

/-- The parsed JSON body returned by the backend, as the controller
reads it: an object whose `assumptions` field may be absent. -/
structure ReasoningData where
  assumptions : Option (List String) := none
deriving DecidableEq, Repr

/-- The `ReasoningResult` shape produced by `AssumptionsAPIClient`:
`{success: true, data}` on success, `{success: false, error}` on
failure. -/
structure ReasoningResult where
  success : Bool
  data : Option ReasoningData := none
  error : Option String := none
deriving DecidableEq, Repr

/-- `PanelManager._handleAnalyze(userPrompt, aiResponse)`.  The awaited
API call is passed in as `outcome`: `Except.error` models a rejected
promise (network error), `Except.ok` a resolved `ReasoningResult`.
First `setState` enters analyzing mode and saves the inputs; then on a
successful result the returned assumptions (defaulted to `[]` when the
field is absent) are stored and mode switches to `assumptions`, followed
by an explicit `assumptionsPage.setAssumptions`; on a reported failure
or a rejection the `catch`/`else` branch reverts to `edit` with
`isAnalyzing: false`.  A success result whose `data` is absent would
make the member access `result.data.assumptions` throw inside the `try`,
landing in the same `catch` revert. -/
def handleAnalyze (sys : PanelSystem) (userPrompt aiResponse : String)
    (outcome : Except String ReasoningResult) : PanelSystem :=
  let sys1 := sys.setState
    { isAnalyzing := some true
      savedPrompt := some userPrompt
      savedResponse := some aiResponse
      currentMode := some .analyzing }
  match outcome with
  | .ok result =>
    if result.success then
      match result.data with
      | some d =>
        let sys2 := sys1.setState
          { assumptions := some (d.assumptions.getD [])
            isAnalyzing := some false
            currentMode := some .assumptions }
        { sys2 with panel := { sys2.panel with pageAssumptions := d.assumptions.getD [] } }
      | none =>
        sys1.setState { isAnalyzing := some false, currentMode := some .edit }
    else
      sys1.setState { isAnalyzing := some false, currentMode := some .edit }
  | .error _ =>
    sys1.setState { isAnalyzing := some false, currentMode := some .edit }

/-- Claim C3: when the API call fails — the promise rejects, or the
resolved result reports `success = false` — the controller ends in
`edit` mode with `isAnalyzing = false`, the store's assumptions list is
exactly what it was before the call, and if that list was empty the
Forward affordance ends hidden. -/
theorem analyze_failure_reverts_to_edit (sys : PanelSystem) (p r : String)
    (outcome : Except String ReasoningResult)
    (hfail : (∃ msg, outcome = .error msg) ∨
             (∃ result, outcome = .ok result ∧ result.success = false)) :
    (handleAnalyze sys p r outcome).store.state.currentMode = PanelMode.edit ∧
    (handleAnalyze sys p r outcome).store.state.isAnalyzing = false ∧
    (handleAnalyze sys p r outcome).store.state.assumptions = sys.store.state.assumptions ∧
    (sys.store.state.assumptions = [] →
      (handleAnalyze sys p r outcome).panel.forwardVisible = false) := by
  have heq : handleAnalyze sys p r outcome =
      (sys.setState
        { isAnalyzing := some true
          savedPrompt := some p
          savedResponse := some r
          currentMode := some .analyzing }).setState
        { isAnalyzing := some false, currentMode := some .edit } := by
    rcases hfail with ⟨msg, hout⟩ | ⟨result, hout, hsf⟩ <;> subst hout
    · rfl
    · simp [handleAnalyze, hsf]
  rw [heq]
  refine ⟨rfl, rfl, rfl, fun hempty => ?_⟩
  simp only [PanelSystem.setState, StateManager.setState]
  rw [handleStateChange_forwardVisible]
  simp [mergeState, hempty]

/-- Witness for C3: a rejected API call on the fresh system. -/
theorem analyze_failure_reverts_to_edit_witness :
    ((∃ msg, (Except.error "network error" : Except String ReasoningResult) = .error msg) ∨
     (∃ result, (Except.error "network error" : Except String ReasoningResult) = .ok result ∧
        result.success = false)) ∧
    ((handleAnalyze initPanelSystem "p" "r" (.error "network error")).store.state.currentMode = PanelMode.edit ∧
     (handleAnalyze initPanelSystem "p" "r" (.error "network error")).store.state.isAnalyzing = false ∧
     (handleAnalyze initPanelSystem "p" "r" (.error "network error")).store.state.assumptions = initPanelSystem.store.state.assumptions ∧
     (initPanelSystem.store.state.assumptions = [] →
        (handleAnalyze initPanelSystem "p" "r" (.error "network error")).panel.forwardVisible = false)) :=
  ⟨Or.inl ⟨"network error", rfl⟩,
   analyze_failure_reverts_to_edit initPanelSystem "p" "r" (.error "network error")
     (Or.inl ⟨"network error", rfl⟩)⟩

/-- Claim C4: when the API call succeeds (`success = true`, with the
parsed body `d` the client attached as `data`), the controller ends in
`assumptions` mode with `isAnalyzing = false`, stores
`result.data.assumptions` as the new assumptions list — defaulting to
the empty list when the `assumptions` field is absent, not treating the
missing field as an error — and pushes the same list to the assumptions
page. -/
theorem analyze_success_stores_assumptions (sys : PanelSystem) (p r : String)
    (result : ReasoningResult) (d : ReasoningData)
    (hs : result.success = true) (hd : result.data = some d) :
    (handleAnalyze sys p r (.ok result)).store.state.currentMode = PanelMode.assumptions ∧
    (handleAnalyze sys p r (.ok result)).store.state.isAnalyzing = false ∧
    (handleAnalyze sys p r (.ok result)).store.state.assumptions = d.assumptions.getD [] ∧
    (handleAnalyze sys p r (.ok result)).panel.pageAssumptions = d.assumptions.getD [] ∧
    (d.assumptions = none →
      (handleAnalyze sys p r (.ok result)).store.state.assumptions = []) := by
  have heq : handleAnalyze sys p r (.ok result) =
      (let sys2 := (sys.setState
          { isAnalyzing := some true
            savedPrompt := some p
            savedResponse := some r
            currentMode := some .analyzing }).setState
          { assumptions := some (d.assumptions.getD [])
            isAnalyzing := some false
            currentMode := some .assumptions }
       { sys2 with panel := { sys2.panel with pageAssumptions := d.assumptions.getD [] } }) := by
    simp [handleAnalyze, hs, hd]
  rw [heq]
  refine ⟨rfl, rfl, rfl, rfl, fun hnone => ?_⟩
  show (d.assumptions.getD []) = []
  simp [hnone]

/-- Witness for C4: a success result whose body has no `assumptions`
field. -/
theorem analyze_success_stores_assumptions_witness :
    (({ success := true, data := some {} } : ReasoningResult).success = true ∧
     ({ success := true, data := some {} } : ReasoningResult).data = some {}) ∧
    ((handleAnalyze initPanelSystem "p" "r" (.ok { success := true, data := some {} })).store.state.currentMode = PanelMode.assumptions ∧
     (handleAnalyze initPanelSystem "p" "r" (.ok { success := true, data := some {} })).store.state.isAnalyzing = false ∧
     (handleAnalyze initPanelSystem "p" "r" (.ok { success := true, data := some {} })).store.state.assumptions = ({} : ReasoningData).assumptions.getD [] ∧
     (handleAnalyze initPanelSystem "p" "r" (.ok { success := true, data := some {} })).panel.pageAssumptions = ({} : ReasoningData).assumptions.getD [] ∧
     (({} : ReasoningData).assumptions = none →
       (handleAnalyze initPanelSystem "p" "r" (.ok { success := true, data := some {} })).store.state.assumptions = [])) :=
  ⟨⟨rfl, rfl⟩,
   analyze_success_stores_assumptions initPanelSystem "p" "r"
     { success := true, data := some {} } {} rfl rfl⟩

/-- Whitespace for JavaScript `String.prototype.trim` (the characters
that can occur in this codebase's inputs). -/
def isJsWhitespace (c : Char) : Bool :=
  c == ' ' || c == '\t' || c == '\n' || c == '\r' || c == '\x0b' || c == '\x0c'

/-- JavaScript `s.trim()`: strips leading and trailing whitespace. -/
def jsTrim (s : String) : String :=
  (((s.data.dropWhile isJsWhitespace).reverse.dropWhile isJsWhitespace).reverse).asString

/-- The character class of the regex `[.?!]*$` used by
`_handleReprompt`. -/
def isTrailingPromptPunct (c : Char) : Bool :=
  c == '.' || c == '?' || c == '!'

/-- `s.replace(/[.?!]*$/, '')`: removes the maximal trailing run of
`.`, `?`, `!` characters (the regex's first match is that run, replaced
by the empty string). -/
def stripTrailingPunct (s : String) : String :=
  ((s.data.reverse.dropWhile isTrailingPromptPunct).reverse).asString

/-- JavaScript `Array.prototype.join(sep)`. -/
def joinSep (sep : String) : List String → String
  | [] => ""
  | [x] => x
  | x :: rest => x ++ sep ++ joinSep sep rest

/-- `PanelManager._handleReprompt()`: the text block built from the
store state and handed to `llmFrontend.insertPrompt` (the adapter's
insertion capability).  `cleanedPrompt` is the saved prompt trimmed and
with trailing `.?!` punctuation stripped. -/
def handleRepromptText (state : AppState) : String :=
  let cleanedPrompt := stripTrailingPunct (jsTrim state.savedPrompt)
  "Please answer the following: " ++ cleanedPrompt ++
    ". When answering, make ONLY the following assumptions about the user\x27s request:\n" ++
    joinSep "\n" (state.assumptions.map (fun a => "- " ++ a))

theorem takeWhile_all {α : Type} (p : α → Bool) :
    ∀ l : List α, (l.takeWhile p).all p = true
  | [] => rfl
  | a :: l => by
    by_cases h : p a
    · simp [List.takeWhile_cons, h, takeWhile_all p l]
    · simp [List.takeWhile_cons, h]

theorem stripTrailingPunct_suffix (s : String) :
    ∃ punctSuffix : List Char,
      punctSuffix.all isTrailingPromptPunct = true ∧
      s.data = (stripTrailingPunct s).data ++ punctSuffix := by
  refine ⟨(s.data.reverse.takeWhile isTrailingPromptPunct).reverse, ?_, ?_⟩
  · rw [List.all_reverse]
    exact takeWhile_all _ _
  · show s.data =
      (s.data.reverse.dropWhile isTrailingPromptPunct).reverse ++
        (s.data.reverse.takeWhile isTrailingPromptPunct).reverse
    rw [← List.reverse_append, List.takeWhile_append_dropWhile, List.reverse_reverse]

/-- The scenario state of the spec: `savedPrompt = "Translate this."`,
`assumptions = ["X", "Y"]`. -/
def repromptScenarioState : AppState :=
  { initialAppState with savedPrompt := "Translate this.", assumptions := ["X", "Y"] }

/-- Claim C5: the reprompt text is the fixed preamble, then the saved
prompt trimmed and with its maximal trailing run of `.?!` stripped, then
a fixed connective, then the assumptions each prefixed with `"- "` and
joined by newlines.  In the spec's scenario (savedPrompt
`"Translate this."`, assumptions `["X", "Y"]`) the inserted text ends
with `"- X\n- Y"` and the prompt appears, stripped of its trailing
period, before that list. -/
theorem reprompt_text_structure :
    (∀ state : AppState, ∃ punctSuffix : List Char,
        punctSuffix.all isTrailingPromptPunct = true ∧
        (jsTrim state.savedPrompt).data =
          (stripTrailingPunct (jsTrim state.savedPrompt)).data ++ punctSuffix ∧
        handleRepromptText state =
          "Please answer the following: " ++ stripTrailingPunct (jsTrim state.savedPrompt) ++
            ". When answering, make ONLY the following assumptions about the user\x27s request:\n" ++
            joinSep "\n" (state.assumptions.map (fun a => "- " ++ a))) ∧
    (∃ t : String, handleRepromptText repromptScenarioState = t ++ "- X\n- Y") ∧
    handleRepromptText repromptScenarioState =
      "Please answer the following: Translate this. When answering, make ONLY the following assumptions about the user\x27s request:\n- X\n- Y" ∧
    stripTrailingPunct (jsTrim "Translate this.") = "Translate this" := by
  refine ⟨fun state => ?_, ?_, ?_, ?_⟩
  · obtain ⟨ps, h1, h2⟩ := stripTrailingPunct_suffix (jsTrim state.savedPrompt)
    exact ⟨ps, h1, h2, rfl⟩
  · exact ⟨"Please answer the following: Translate this. When answering, make ONLY the following assumptions about the user\x27s request:\n", by decide⟩
  · decide
  · decide

/-- A resolved `fetch` response as `extractReasoning` inspects it:
status, status text, and the outcome of `res.json()` (which can throw
on a malformed body). -/
structure HttpResponse where
  status : Nat
  statusText : String
  jsonBody : Except String ReasoningData
deriving Repr

/-- `res.ok`: true exactly for 2xx statuses. -/
def HttpResponse.isOk (res : HttpResponse) : Bool :=
  200 ≤ res.status && res.status ≤ 299

/-- The outcome of the `fetch` call: the promise rejects (network
error) or resolves to a response. -/
inductive FetchOutcome where
  | rejected (message : String)
  | resolved (res : HttpResponse)
deriving Repr

/-- `error.message || "Unknown error"` in the catch branch. -/
def errorMessageOrUnknown (message : String) : String :=
  if message = "" then "Unknown error" else message

/-- `AssumptionsAPIClient.extractReasoning(prompt, response)`.  The
provider guard sits before the `try`, so a falsy (empty) provider makes
the method throw — modelled as `Except.error` — before any request is
made (the fetch outcome is ignored).  Inside the `try`, a rejected
fetch, a non-2xx status (which throws `HTTP <status>: <statusText>`),
or a throwing `res.json()` all land in the `catch`, which normalizes to
`{success: false, error: error.message || "Unknown error"}`; a 2xx
response with a parsed body returns `{success: true, data: body}`. -/
def extractReasoning (provider : String) (fetchResult : FetchOutcome) :
    Except String ReasoningResult :=
  if provider = "" then
    .error "Provider is required for extracting reasoning."
  else
    .ok (match fetchResult with
      | .rejected message =>
        { success := false, error := some (errorMessageOrUnknown message) }
      | .resolved res =>
        if res.isOk then
          match res.jsonBody with
          | .ok d => { success := true, data := some d }
          | .error message =>
            { success := false, error := some (errorMessageOrUnknown message) }
        else
          { success := false
            error := some (errorMessageOrUnknown
              ("HTTP " ++ toString res.status ++ ": " ++ res.statusText)) })

theorem errorMessageOrUnknown_ne_empty (message : String) :
    errorMessageOrUnknown message ≠ "" := by
  unfold errorMessageOrUnknown
  split
  · decide
  · assumption

/-- Claim C6: with a configured (non-empty) provider the client never
propagates an exception: a 2xx response whose body parses yields
`{success: true, data: body}`, while a rejected fetch, a non-2xx
status, or a throwing body parse each yield `{success: false, error}`
with a non-empty error string. -/
theorem extractReasoning_normalizes (provider : String) (f : FetchOutcome)
    (hp : provider ≠ "") :
    (∃ result, extractReasoning provider f = .ok result) ∧
    (∀ res d, f = .resolved res → res.isOk = true → res.jsonBody = .ok d →
      extractReasoning provider f = .ok { success := true, data := some d }) ∧
    (∀ message, f = .rejected message →
      ∃ e, extractReasoning provider f = .ok { success := false, error := some e } ∧ e ≠ "") ∧
    (∀ res, f = .resolved res → res.isOk = false →
      ∃ e, extractReasoning provider f = .ok { success := false, error := some e } ∧ e ≠ "") ∧
    (∀ res message, f = .resolved res → res.jsonBody = .error message →
      ∃ e, extractReasoning provider f = .ok { success := false, error := some e } ∧ e ≠ "") := by
  refine ⟨?_, ?_, ?_, ?_, ?_⟩
  · unfold extractReasoning
    rw [if_neg hp]
    exact ⟨_, rfl⟩
  · rintro res d rfl hok hbody
    simp [extractReasoning, hp, hok, hbody]
  · rintro message rfl
    exact ⟨errorMessageOrUnknown message, by simp [extractReasoning, hp],
      errorMessageOrUnknown_ne_empty message⟩
  · rintro res rfl hok
    exact ⟨errorMessageOrUnknown ("HTTP " ++ toString res.status ++ ": " ++ res.statusText),
      by simp [extractReasoning, hp, hok], errorMessageOrUnknown_ne_empty _⟩
  · rintro res message rfl hbody
    by_cases hok : res.isOk
    · exact ⟨errorMessageOrUnknown message,
        by simp [extractReasoning, hp, hok, hbody], errorMessageOrUnknown_ne_empty _⟩
    · exact ⟨errorMessageOrUnknown ("HTTP " ++ toString res.status ++ ": " ++ res.statusText),
        by simp [extractReasoning, hp, hok], errorMessageOrUnknown_ne_empty _⟩

/-- Witness for C6: provider `"openai"`, fetch resolving to a 200
response with a parsed body. -/
theorem extractReasoning_normalizes_witness :
    ("openai" ≠ "") ∧
    ((∃ result,
        extractReasoning "openai"
          (.resolved { status := 200, statusText := "OK", jsonBody := .ok {} }) = .ok result) ∧
     (∀ res d,
        (FetchOutcome.resolved { status := 200, statusText := "OK", jsonBody := .ok {} }) =
          .resolved res → res.isOk = true → res.jsonBody = .ok d →
        extractReasoning "openai"
          (.resolved { status := 200, statusText := "OK", jsonBody := .ok {} }) =
          .ok { success := true, data := some d }) ∧
     (∀ message,
        (FetchOutcome.resolved { status := 200, statusText := "OK", jsonBody := .ok {} }) =
          .rejected message →
        ∃ e, extractReasoning "openai"
            (.resolved { status := 200, statusText := "OK", jsonBody := .ok {} }) =
          .ok { success := false, error := some e } ∧ e ≠ "") ∧
     (∀ res,
        (FetchOutcome.resolved { status := 200, statusText := "OK", jsonBody := .ok {} }) =
          .resolved res → res.isOk = false →
        ∃ e, extractReasoning "openai"
            (.resolved { status := 200, statusText := "OK", jsonBody := .ok {} }) =
          .ok { success := false, error := some e } ∧ e ≠ "") ∧
     (∀ res message,
        (FetchOutcome.resolved { status := 200, statusText := "OK", jsonBody := .ok {} }) =
          .resolved res → res.jsonBody = .error message →
        ∃ e, extractReasoning "openai"
            (.resolved { status := 200, statusText := "OK", jsonBody := .ok {} }) =
          .ok { success := false, error := some e } ∧ e ≠ "")) :=
  ⟨by decide,
   extractReasoning_normalizes "openai"
     (.resolved { status := 200, statusText := "OK", jsonBody := .ok {} }) (by decide)⟩

/-- Claim C10: an empty (falsy) provider makes `extractReasoning`
throw — the returned promise rejects with the guard's error — for every
fetch outcome (so before any request is issued, and never as a
`{success: false}` result), while any non-empty provider always yields
a normalized `Except.ok` result: only errors arising after the guard
are mapped to failure results. -/
theorem extractReasoning_empty_provider_throws :
    (∀ f : FetchOutcome,
      extractReasoning "" f = .error "Provider is required for extracting reasoning.") ∧
    (∀ (p : String) (f : FetchOutcome), p ≠ "" →
      ∃ result, extractReasoning p f = .ok result) := by
  constructor
  · intro f
    rfl
  · intro p f hp
    unfold extractReasoning
    rw [if_neg hp]
    exact ⟨_, rfl⟩

/-- Witness for C10 at a concrete fetch outcome and provider. -/
theorem extractReasoning_empty_provider_throws_witness :
    (extractReasoning "" (.rejected "boom") =
      .error "Provider is required for extracting reasoning.") ∧
    ("openai" ≠ "" ∧
      ∃ result, extractReasoning "openai" (.rejected "boom") = .ok result) :=
  ⟨extractReasoning_empty_provider_throws.1 (.rejected "boom"),
   by decide,
   extractReasoning_empty_provider_throws.2 "openai" (.rejected "boom") (by decide)⟩

theorem updateModeUI_pageAssumptions (mode : PanelMode) (s : AppState) (pc : PanelCtrl) :
    (updateModeUI mode s pc).pageAssumptions = pc.pageAssumptions := by
  cases mode <;> rfl

theorem handleStateChange_pageAssumptions (newState oldState : AppState) (pc : PanelCtrl) :
    (handleStateChange newState oldState pc).pageAssumptions =
      if newState.assumptions ≠ oldState.assumptions then newState.assumptions
      else pc.pageAssumptions := by
  simp only [handleStateChange]
  by_cases ha : newState.assumptions = oldState.assumptions <;>
    by_cases hm : newState.currentMode = oldState.currentMode <;>
      simp [ha, hm, updateModeUI_pageAssumptions]

/-- The delete button handler of an assumption bubble at `index`
(`AssumptionsPage`): `this.assumptions.splice(index, 1)` removes the
element, then `_updateAssumptionsState` re-renders and reports the
updated array to `onUpdateAssumptions`, which is the panel controller's
`_handleUpdateAssumptions`, i.e. `setState({assumptions})` on the
store. -/
def deleteAssumptionHandler (sys : PanelSystem) (index : Nat) : PanelSystem :=
  let spliced := sys.panel.pageAssumptions.eraseIdx index
  let sys1 := { sys with panel := { sys.panel with pageAssumptions := spliced } }
  sys1.setState { assumptions := some spliced }

/-- Claim C7: deleting the assumption at a valid index `i` yields the
original list with exactly that element removed — the prefix before `i`
followed by the suffix after `i`, so relative order is preserved and the
length drops by one — and this exact list is what the update callback
reports to the store (and what the page then displays). -/
theorem delete_assumption_removes_index (sys : PanelSystem) (i : Nat)
    (hi : i < sys.panel.pageAssumptions.length) :
    (deleteAssumptionHandler sys i).store.state.assumptions =
      sys.panel.pageAssumptions.take i ++ sys.panel.pageAssumptions.drop (i + 1) ∧
    (deleteAssumptionHandler sys i).store.state.assumptions.length =
      sys.panel.pageAssumptions.length - 1 ∧
    (deleteAssumptionHandler sys i).panel.pageAssumptions =
      (deleteAssumptionHandler sys i).store.state.assumptions := by
  have hstore : (deleteAssumptionHandler sys i).store.state.assumptions =
      sys.panel.pageAssumptions.eraseIdx i := rfl
  refine ⟨?_, ?_, ?_⟩
  · rw [hstore]
    exact List.eraseIdx_eq_take_drop_succ _ _
  · rw [hstore]
    exact List.length_eraseIdx_of_lt hi
  · rw [hstore]
    show (handleStateChange _ _ _).pageAssumptions = _
    rw [handleStateChange_pageAssumptions]
    split <;> rfl

/-- A realistic system holding assumptions `["X", "Y"]`: the fresh
system after a successful analyze call. -/
def sampleAssumptionsSystem : PanelSystem :=
  handleAnalyze initPanelSystem "p" "r"
    (.ok { success := true, data := some { assumptions := some ["X", "Y"] } })

/-- Witness for C7: deleting index 0 from `["X", "Y"]`. -/
theorem delete_assumption_removes_index_witness :
    0 < sampleAssumptionsSystem.panel.pageAssumptions.length ∧
    ((deleteAssumptionHandler sampleAssumptionsSystem 0).store.state.assumptions =
      sampleAssumptionsSystem.panel.pageAssumptions.take 0 ++
        sampleAssumptionsSystem.panel.pageAssumptions.drop 1 ∧
     (deleteAssumptionHandler sampleAssumptionsSystem 0).store.state.assumptions.length =
      sampleAssumptionsSystem.panel.pageAssumptions.length - 1 ∧
     (deleteAssumptionHandler sampleAssumptionsSystem 0).panel.pageAssumptions =
      (deleteAssumptionHandler sampleAssumptionsSystem 0).store.state.assumptions) :=
  ⟨by decide, delete_assumption_removes_index sampleAssumptionsSystem 0 (by decide)⟩

/-- Keys the edit input's keydown handler distinguishes. -/
inductive EditKeydownKey where
  | enter
  | escape
  | other
deriving DecidableEq, Repr

/-- The keydown handler of the edit input of the assumption bubble at
`index` (`AssumptionsPage._createAssumptionBubble`).  The pair returned
is (assumptions array afterwards, the input element's value
afterwards).  On Enter the array cell at `index` is set to the trimmed
input value (`this.assumptions[index] = input.value.trim()`, after
which `_updateAssumptionsState` re-renders and reports upward); on
Escape the array is untouched and the input's value is restored to the
current — i.e. pre-edit — array entry
(`input.value = this.assumptions[index]`); any other key changes
neither. -/
def editInputKeydown (assumptionList : List String) (index : Nat) (inputValue : String)
    (key : EditKeydownKey) : List String × String :=
  match key with
  | .enter => (assumptionList.set index (jsTrim inputValue), inputValue)
  | .escape => (assumptionList, assumptionList.getD index "")
  | .other => (assumptionList, inputValue)

/-- Counterexample to claim C8 as stated: committing the entered text
`" b "` at index 0 of `["a"]` stores the trimmed `"b"`, not the entered
text itself. -/
theorem edit_commit_entered_text_counterexample :
    (editInputKeydown ["a"] 0 " b " .enter).1 = ["b"] ∧
    (editInputKeydown ["a"] 0 " b " .enter).1 ≠ [" b "] := by decide

/-- Claim C8 (amended): committing the edit at a valid index `i`
replaces only the element at `i`, storing the entered text trimmed of
leading and trailing whitespace, and leaves every other element and the
length unchanged; cancelling restores the input to the pre-edit text at
`i` and leaves the whole list unchanged. -/
theorem edit_commit_and_cancel (l : List String) (i : Nat) (txt : String)
    (hi : i < l.length) :
    (editInputKeydown l i txt .enter).1.length = l.length ∧
    ((editInputKeydown l i txt .enter).1)[i]? = some (jsTrim txt) ∧
    (∀ j, j ≠ i → ((editInputKeydown l i txt .enter).1)[j]? = l[j]?) ∧
    (editInputKeydown l i txt .escape).1 = l ∧
    (editInputKeydown l i txt .escape).2 = l.get ⟨i, hi⟩ := by
  refine ⟨List.length_set l i (jsTrim txt), List.getElem?_set_self hi,
    fun j hj => List.getElem?_set_ne (Ne.symm hj), rfl, ?_⟩
  show l.getD i "" = l.get ⟨i, hi⟩
  simp [List.getD_eq_getElem?_getD, List.getElem?_eq_getElem hi]

/-- Witness for C8 at `["X", "Y"]`, index 1, entered text `" Z "`. -/
theorem edit_commit_and_cancel_witness :
    1 < (["X", "Y"] : List String).length ∧
    ((editInputKeydown ["X", "Y"] 1 " Z " .enter).1.length = (["X", "Y"] : List String).length ∧
     ((editInputKeydown ["X", "Y"] 1 " Z " .enter).1)[1]? = some (jsTrim " Z ") ∧
     (∀ j, j ≠ 1 → ((editInputKeydown ["X", "Y"] 1 " Z " .enter).1)[j]? = (["X", "Y"] : List String)[j]?) ∧
     (editInputKeydown ["X", "Y"] 1 " Z " .escape).1 = ["X", "Y"] ∧
     (editInputKeydown ["X", "Y"] 1 " Z " .escape).2 =
       (["X", "Y"] : List String).get ⟨1, by decide⟩) :=
  ⟨by decide, edit_commit_and_cancel ["X", "Y"] 1 " Z " (by decide)⟩

/-- The host-page DOM facts an adapter's detection inspects: presence
of the ProseMirror editable editor and of the composer footer
container. -/
structure PageDOM where
  hasProseMirrorEditor : Bool
  hasComposerFooterActions : Bool
deriving DecidableEq, Repr

/-- An LLM frontend adapter record: a name plus the page-detection
capability (the capability relevant to registry lookup). -/
structure LLMFrontendAdapter where
  name : String
  detectPage : PageDOM → Bool

/-- `OpenAIFrontendAdapter`: `detectPage()` checks
`document.querySelector` for the ProseMirror contenteditable input. -/
def openAIFrontendAdapter : LLMFrontendAdapter :=
  { name := "chatgpt", detectPage := fun page => page.hasProseMirrorEditor }

/-- The module-level registry `LLM_FRONTEND_ADAPTERS`, populated once at
load. -/
def llmFrontendAdapterRegistry : List LLMFrontendAdapter :=
  [openAIFrontendAdapter]

/-- `getActiveLLMFrontendAdapter()`: iterates the registered adapters in
order and returns the first whose `detectPage()` succeeds, or `null`
(here `none`) when none does. -/
def getActiveLLMFrontendAdapter : List LLMFrontendAdapter → PageDOM → Option LLMFrontendAdapter
  | [], _ => none
  | adapter :: rest, page =>
    if adapter.detectPage page then some adapter
    else getActiveLLMFrontendAdapter rest page

/-- Claim C9: for every registered adapter list and page condition, the
lookup returns `none` exactly when no registered adapter detects the
page, and whenever it returns an adapter, that adapter occurs in the
list at some position `i`, detects the page, and every adapter at an
earlier position fails to detect it — i.e. it is the first match in
registration order. -/
theorem registry_returns_first_match (adapters : List LLMFrontendAdapter) (page : PageDOM) :
    (getActiveLLMFrontendAdapter adapters page = none ↔
      ∀ a ∈ adapters, a.detectPage page = false) ∧
    (∀ a, getActiveLLMFrontendAdapter adapters page = some a →
      ∃ i : Fin adapters.length,
        adapters.get i = a ∧ a.detectPage page = true ∧
        ∀ j : Fin adapters.length, j.val < i.val →
          (adapters.get j).detectPage page = false) := by
  induction adapters with
  | nil =>
    refine ⟨by simp [getActiveLLMFrontendAdapter], fun a ha => ?_⟩
    simp [getActiveLLMFrontendAdapter] at ha
  | cons hd rest ih =>
    by_cases hdet : hd.detectPage page
    · refine ⟨?_, ?_⟩
      · simp [getActiveLLMFrontendAdapter, hdet]
      · intro a ha
        simp only [getActiveLLMFrontendAdapter, hdet, if_true, ite_true] at ha
        cases ha
        exact ⟨⟨0, by simp⟩, rfl, hdet, fun j hj => absurd hj (Nat.not_lt_zero _)⟩
    · have hstep : getActiveLLMFrontendAdapter (hd :: rest) page =
          getActiveLLMFrontendAdapter rest page := by
        simp [getActiveLLMFrontendAdapter, hdet]
      refine ⟨?_, ?_⟩
      · rw [hstep, ih.1]
        simp only [List.mem_cons]
        constructor
        · rintro hall a (rfl | hmem)
          · simpa using hdet
          · exact hall a hmem
        · intro hall a hmem
          exact hall a (Or.inr hmem)
      · intro a ha
        rw [hstep] at ha
        obtain ⟨i, hget, hdet2, hfirst⟩ := ih.2 a ha
        refine ⟨⟨i.val + 1, by simp [Nat.succ_lt_succ i.isLt]⟩, by simpa using hget, hdet2, ?_⟩
        rintro ⟨j, hj⟩ hlt
        cases j with
        | zero => simpa using hdet
        | succ k =>
          have hk : k < i.val := Nat.lt_of_succ_lt_succ hlt
          simpa using hfirst ⟨k, Nat.lt_of_succ_lt_succ hj⟩ hk

/-- A second adapter used only to exercise the registry lookup on a
two-element list: detects the page iff the composer footer is present. -/
def footerProbeAdapter : LLMFrontendAdapter :=
  { name := "footer-probe", detectPage := fun page => page.hasComposerFooterActions }

/-- A page on which the footer probe fails but the OpenAI adapter
succeeds. -/
def proseMirrorOnlyPage : PageDOM :=
  { hasProseMirrorEditor := true, hasComposerFooterActions := false }

/-- Witness for C9: on the two-adapter list the lookup skips the
non-matching first adapter and returns the second. -/
theorem registry_returns_first_match_witness :
    getActiveLLMFrontendAdapter [footerProbeAdapter, openAIFrontendAdapter]
        proseMirrorOnlyPage = some openAIFrontendAdapter ∧
    ∃ i : Fin ([footerProbeAdapter, openAIFrontendAdapter] : List LLMFrontendAdapter).length,
      ([footerProbeAdapter, openAIFrontendAdapter] : List LLMFrontendAdapter).get i =
          openAIFrontendAdapter ∧
      openAIFrontendAdapter.detectPage proseMirrorOnlyPage = true ∧
      ∀ j : Fin ([footerProbeAdapter, openAIFrontendAdapter] : List LLMFrontendAdapter).length,
        j.val < i.val →
        (([footerProbeAdapter, openAIFrontendAdapter] : List LLMFrontendAdapter).get j).detectPage
            proseMirrorOnlyPage = false :=
  ⟨rfl,
   (registry_returns_first_match [footerProbeAdapter, openAIFrontendAdapter]
      proseMirrorOnlyPage).2 openAIFrontendAdapter rfl⟩

end TransparencyLayer
